import Mathlib

/-!
Enhanced ShockBurst transmitter sample (`esb_ptx/src/main.c`).

A shallow embedding of the transmitter application: the four file-scope
variables become a `State` record, every handler becomes a function from a
state to the next state together with the list of calls it makes into the
radio, LED, clock and logging layers, and the values returned by those
layers are supplied as arguments.

Conventions.
* C arrays are functions from the index to the element; only indices below
  the array bound are meaningful.
* `uint16_t`/`uint8_t` values are natural numbers, reduced explicitly where
  the C code truncates; `int` values are integers.
* Each handler runs as one atomic step.
-/

namespace EsbPtx

/-! ## Platform constants -/

/-- Constants and build switches that come from headers and Kconfig, which
are not part of the translated file.  `DK_LEDj` is the bit number of LED j
in `dk_buttons_and_leds.h`; `nrf54l_errata_20` is the value returned by the
run-time erratum test. -/
structure Platform where
  ENXIO : Int
  EAGAIN : Int
  DK_LED1 : Nat
  DK_LED2 : Nat
  DK_LED3 : Nat
  DK_LED4 : Nat
  NRF54L_ERRATA_20_PRESENT : Bool
  nrf54l_errata_20 : Bool
  NRF54LM20A_ENGA_XXAA : Bool
  CONFIG_ESB_FAST_SWITCHING : Bool

/-- The values of the nRF Connect SDK headers for a development kit. -/
def nrfPlatform : Platform where
  ENXIO := 6
  EAGAIN := 11
  DK_LED1 := 0
  DK_LED2 := 1
  DK_LED3 := 2
  DK_LED4 := 3
  NRF54L_ERRATA_20_PRESENT := false
  nrf54l_errata_20 := false
  NRF54LM20A_ENGA_XXAA := false
  CONFIG_ESB_FAST_SWITCHING := false

/-- The macro BIT(n) of the Zephyr headers. -/
def BIT (n : Nat) : Nat := 2 ^ n

/-- Mask of LED 1: BIT(DK_LED1). -/
def DK_LED1_MSK (P : Platform) : Nat := BIT P.DK_LED1
/-- Mask of LED 2: BIT(DK_LED2). -/
def DK_LED2_MSK (P : Platform) : Nat := BIT P.DK_LED2
/-- Mask of LED 3: BIT(DK_LED3). -/
def DK_LED3_MSK (P : Platform) : Nat := BIT P.DK_LED3
/-- Mask of LED 4: BIT(DK_LED4). -/
def DK_LED4_MSK (P : Platform) : Nat := BIT P.DK_LED4

/-- Number of samples in the buffer (line 31). -/
def NUM_SAMPLES : Nat := 126

/-- The value of sizeof(audio_samples): 126 elements of two bytes. -/
def sizeof_audio_samples : Nat := NUM_SAMPLES * 2

/-- Largest value of a C int on the target (32 bits). -/
def INT_MAX : Int := 2147483647

/-- Smallest value of a C int on the target (32 bits). -/
def INT_MIN : Int := -2147483648

/-- Reduction of an integer into the range of a 32-bit two-complement int.
ISO C leaves signed overflow undefined; the target wraps. -/
def int_wrap (x : Int) : Int := (x + 2147483648) % 4294967296 - 2147483648

/-! ## Data model -/

/-- The fields of struct esb_payload that the application touches. -/
structure esb_payload where
  length : Nat
  pipe : Nat
  noack : Bool
  data : Nat → Nat

/-- Event identifiers delivered by the radio layer; a C enum object can
also hold a value that is none of the three enumerators. -/
inductive esb_evt_id where
  | ESB_EVENT_TX_SUCCESS
  | ESB_EVENT_TX_FAILED
  | ESB_EVENT_RX_RECEIVED
  | other (n : Int)

/-- The part of struct esb_evt read by the event handler. -/
structure esb_evt where
  evt_id : esb_evt_id

/-- The file-scope variables of lines 33 to 39. -/
structure State where
  ready : Bool
  tx_payload : esb_payload
  audio_samples : Nat → Nat
  packets_send : Int

/-- The static initialisers: ready = true, everything else zero. -/
def init_state : State where
  ready := true
  tx_payload := { length := 0, pipe := 0, noack := false, data := fun _ => 0 }
  audio_samples := fun _ => 0
  packets_send := 0

/-- Log lines written by the application. -/
inductive LogMsg where
  | banner
  | tx_success
  | tx_failed
  | packet_received
  | no_clock_manager
  | clock_request_failed (err : Int)
  | clock_not_started (res : Int)
  | hf_clock_started
  | leds_init_failed (err : Int)
  | esb_init_failed (err : Int)
  | init_complete
  | sending_test_packet
  | payload_write_failed (err : Int)
  | not_ready

/-- The numeric and boolean fields of struct esb_config that esb_initialize
assigns; use_fast_ramp_up is none when the default value is kept.  The
enumerated fields (protocol, bitrate, mode) and the callback pointer receive
fixed constants and are left out. -/
structure esb_config where
  retransmit_delay : Nat
  retransmit_count : Nat
  selective_auto_ack : Bool
  use_fast_ramp_up : Option Bool

/-- Calls that leave the translated file, in program order. -/
inductive Effect where
  | LOG_INF (m : LogMsg)
  | LOG_ERR (m : LogMsg)
  | LOG_DBG (m : LogMsg)
  | z_nrf_clock_control_get_onoff
  | sys_notify_init_spinwait
  | onoff_request
  | nrf_clock_control_request
  | sys_notify_fetch_result
  | nrf_power_task_trigger
  | nrf_clock_task_trigger
  | nrf_lrcconf_poweron_force_set
  | nrf_lrcconf_clock_always_run_force_set
  | nrf_lrcconf_task_trigger
  | dk_leds_init
  | esb_init (config : esb_config)
  | esb_set_base_address_0 (addr : List Nat)
  | esb_set_base_address_1 (addr : List Nat)
  | esb_set_prefixes (prefixes : List Nat) (num_pipes : Nat)
  | dk_set_leds (leds_mask : Nat)
  | esb_flush_tx
  | esb_write_payload (payload : esb_payload)
  | k_timer_start (duration_us : Nat) (period_us : Nat)
  | k_sleep (seconds : Nat)

/-- True on a call of esb_write_payload. -/
def Effect.isWrite : Effect → Bool
  | Effect.esb_write_payload _ => true
  | _ => false

/-- True on the calls that start the LEDs, the radio or the timer. -/
def Effect.isBringUp : Effect → Bool
  | Effect.dk_leds_init => true
  | Effect.esb_init _ => true
  | Effect.esb_set_base_address_0 _ => true
  | Effect.esb_set_base_address_1 _ => true
  | Effect.esb_set_prefixes _ _ => true
  | Effect.k_timer_start _ _ => true
  | _ => false

/-- Number of esb_write_payload calls in a trace. -/
def writes (tr : List Effect) : Nat := (tr.filter Effect.isWrite).length

/-! ## event_handler (lines 45 to 59) -/

/-- The completion callback: sets ready, then logs according to evt_id. -/
def event_handler (s : State) (event : esb_evt) : State × List Effect :=
  let s1 := { s with ready := true }
  match event.evt_id with
  | esb_evt_id.ESB_EVENT_TX_SUCCESS => (s1, [Effect.LOG_DBG LogMsg.tx_success])
  | esb_evt_id.ESB_EVENT_TX_FAILED => (s1, [Effect.LOG_DBG LogMsg.tx_failed])
  | esb_evt_id.ESB_EVENT_RX_RECEIVED => (s1, [Effect.LOG_DBG LogMsg.packet_received])
  | esb_evt_id.other _ => (s1, [])

/-! ## leds_update (lines 187 to 194) -/

/-- The value of the local variable leds_mask. -/
def leds_mask (P : Platform) (value : Nat) : Nat :=
  (if !(decide (value % 8 > 0) && decide (value % 8 ≤ 4)) then DK_LED1_MSK P else 0) |||
  (if !(decide (value % 8 > 1) && decide (value % 8 ≤ 5)) then DK_LED2_MSK P else 0) |||
  (if !(decide (value % 8 > 2) && decide (value % 8 ≤ 6)) then DK_LED3_MSK P else 0) |||
  (if !(decide (value % 8 > 3)) then DK_LED4_MSK P else 0)

/-- The function leds_update: computes the mask and hands it to dk_set_leds. -/
def leds_update (P : Platform) (value : Nat) : List Effect :=
  [Effect.dk_set_leds (leds_mask P value)]

/-! ## sample_handler (lines 196 to 216) -/

/-- Byte k of the object representation of a uint16_t array on the
little-endian target: element k / 2, low byte first. -/
def u16_byte (a : Nat → Nat) (k : Nat) : Nat :=
  if k % 2 = 0 then a (k / 2) % 256 else a (k / 2) / 256 % 256

/-- The call memcpy(dst, src, n) from a uint16_t array into a byte array. -/
def memcpy (dst : Nat → Nat) (src : Nat → Nat) (n : Nat) : Nat → Nat :=
  fun k => if k < n then u16_byte src k else dst k

/-- The loop of lines 210 to 212: audio_samples[i] += 1 on uint16_t, for
i from 0 up to NUM_SAMPLES. -/
def increment_samples (a : Nat → Nat) : Nat → Nat :=
  (List.range NUM_SAMPLES).foldl (fun b i => Function.update b i ((b i + 1) % 65536)) a

/-- One run of the timer handler; write_ret is the value esb_write_payload
returns if it is called. -/
def sample_handler (P : Platform) (s : State) (write_ret : Int) : State × List Effect :=
  if s.ready then
    let s1 := { s with ready := false }
    let e1 := [Effect.esb_flush_tx]
    let e2 := leds_update P (s1.tx_payload.data 1)
    let s2 := { s1 with tx_payload :=
      { s1.tx_payload with data := memcpy s1.tx_payload.data s1.audio_samples sizeof_audio_samples } }
    let e3 := [Effect.esb_write_payload s2.tx_payload]
    let err := write_ret
    let s3 := if err ≠ 0 then s2 else { s2 with packets_send := int_wrap (s2.packets_send + 1) }
    let e4 := if err ≠ 0 then [Effect.LOG_ERR (LogMsg.payload_write_failed err)] else []
    let s4 := { s3 with audio_samples := increment_samples s3.audio_samples }
    (s4, e1 ++ e2 ++ e3 ++ e4)
  else
    (s, [Effect.LOG_ERR LogMsg.not_ready])

/-! ## Interleavings of the two handlers -/

/-- One handler activation. -/
inductive Action where
  | tick (write_ret : Int)
  | event (e : esb_evt)

/-- True on a timer tick. -/
def Action.isTick : Action → Bool
  | Action.tick _ => true
  | Action.event _ => false

/-- One atomic handler run. -/
def step (P : Platform) (s : State) : Action → State × List Effect
  | Action.tick w => sample_handler P s w
  | Action.event e => event_handler s e

/-- A finite sequence of handler runs, with the concatenated trace. -/
def run (P : Platform) (s : State) : List Action → State × List Effect
  | [] => (s, [])
  | a :: rest =>
    let r := step P s a
    let q := run P r.1 rest
    (q.1, r.2 ++ q.2)

/-! ## clocks_start (lines 61 to 139) -/

/-- Values supplied by the clock subsystem: whether
z_nrf_clock_control_get_onoff returns a manager, the value returned by the
clock request, and for the n-th call of sys_notify_fetch_result (counted
from 0) its return value together with the result code it stores. -/
structure ClockOracle where
  clk_mgr : Bool
  request : Int
  fetch : Nat → Int × Int

/-- How a polling loop ends: by the return statement inside it, or by its
condition becoming false with the last poll status err. -/
inductive LoopExit where
  | ret (res : Int)
  | done (err : Int)

/-- The do-while loop of lines 82 to 88, started at poll number n; none when
the fuel runs out before the loop ends. -/
def poll_loop_nrf (fetch : Nat → Int × Int) : Nat → Nat → Option (LoopExit × List Effect)
  | 0, _ => none
  | fuel + 1, n =>
    let err := (fetch n).1
    let res := (fetch n).2
    if err = 0 ∧ res ≠ 0 then
      some (LoopExit.ret res,
        [Effect.sys_notify_fetch_result, Effect.LOG_ERR (LogMsg.clock_not_started res)])
    else if err ≠ 0 then
      match poll_loop_nrf fetch fuel (n + 1) with
      | none => none
      | some (x, tr) => some (x, Effect.sys_notify_fetch_result :: tr)
    else
      some (LoopExit.done err, [Effect.sys_notify_fetch_result])

/-- The do-while loop of lines 122 to 128, which repeats only on -EAGAIN. -/
def poll_loop_nrf2 (P : Platform) (fetch : Nat → Int × Int) :
    Nat → Nat → Option (LoopExit × List Effect)
  | 0, _ => none
  | fuel + 1, n =>
    let err := (fetch n).1
    let res := (fetch n).2
    if err = 0 ∧ res ≠ 0 then
      some (LoopExit.ret res,
        [Effect.sys_notify_fetch_result, Effect.LOG_ERR (LogMsg.clock_not_started res)])
    else if err = -P.EAGAIN then
      match poll_loop_nrf2 P fetch fuel (n + 1) with
      | none => none
      | some (x, tr) => some (x, Effect.sys_notify_fetch_result :: tr)
    else
      some (LoopExit.done err, [Effect.sys_notify_fetch_result])

/-- Calls made between the loop and the final log line of the
CONFIG_CLOCK_CONTROL_NRF variant (lines 90 to 99). -/
def errata_calls (P : Platform) : List Effect :=
  (if P.NRF54L_ERRATA_20_PRESENT && P.nrf54l_errata_20 then [Effect.nrf_power_task_trigger] else []) ++
  (if P.NRF54LM20A_ENGA_XXAA then [Effect.nrf_clock_task_trigger] else [])

/-- The function clocks_start of the CONFIG_CLOCK_CONTROL_NRF variant. -/
def clocks_start_nrf (P : Platform) (O : ClockOracle) (fuel : Nat) : Option (Int × List Effect) :=
  if !O.clk_mgr then
    some (-P.ENXIO,
      [Effect.z_nrf_clock_control_get_onoff, Effect.LOG_ERR LogMsg.no_clock_manager])
  else
    let err := O.request
    if err < 0 then
      some (err,
        [Effect.z_nrf_clock_control_get_onoff, Effect.sys_notify_init_spinwait,
         Effect.onoff_request, Effect.LOG_ERR (LogMsg.clock_request_failed err)])
    else
      match poll_loop_nrf O.fetch fuel 0 with
      | none => none
      | some (LoopExit.ret res, tr) =>
        some (res,
          [Effect.z_nrf_clock_control_get_onoff, Effect.sys_notify_init_spinwait,
           Effect.onoff_request] ++ tr)
      | some (LoopExit.done _, tr) =>
        some (0,
          [Effect.z_nrf_clock_control_get_onoff, Effect.sys_notify_init_spinwait,
           Effect.onoff_request] ++ tr ++ errata_calls P ++ [Effect.LOG_DBG LogMsg.hf_clock_started])

/-- The function clocks_start of the CONFIG_CLOCK_CONTROL_NRF2 variant; the
value returned by nrf_clock_control_request is overwritten by the first
poll without being read. -/
def clocks_start_nrf2 (P : Platform) (O : ClockOracle) (fuel : Nat) : Option (Int × List Effect) :=
  match poll_loop_nrf2 P O.fetch fuel 0 with
  | none => none
  | some (LoopExit.ret res, tr) =>
    some (res,
      [Effect.nrf_lrcconf_poweron_force_set, Effect.sys_notify_init_spinwait,
       Effect.nrf_clock_control_request] ++ tr)
  | some (LoopExit.done _, tr) =>
    some (0,
      [Effect.nrf_lrcconf_poweron_force_set, Effect.sys_notify_init_spinwait,
       Effect.nrf_clock_control_request] ++ tr ++
      [Effect.nrf_lrcconf_clock_always_run_force_set, Effect.nrf_lrcconf_task_trigger,
       Effect.LOG_DBG LogMsg.hf_clock_started])

/-- Which clock-control driver the build selects. -/
inductive ClockControl where
  | NRF
  | NRF2

/-- The function clocks_start of the selected variant. -/
def clocks_start (v : ClockControl) (P : Platform) (O : ClockOracle) (fuel : Nat) :
    Option (Int × List Effect) :=
  match v with
  | ClockControl.NRF => clocks_start_nrf P O fuel
  | ClockControl.NRF2 => clocks_start_nrf2 P O fuel

/-! ## esb_initialize and main (lines 141 to 185 and 218 to 252) -/

/-- Values returned by the LED driver and the radio layer during start-up. -/
structure InitOracle where
  dk_leds_init : Int
  esb_init : Int
  esb_set_base_address_0 : Int
  esb_set_base_address_1 : Int
  esb_set_prefixes : Int

/-- The function esb_initialize. -/
def esb_initialize (P : Platform) (I : InitOracle) : Int × List Effect :=
  let base_addr_0 := [0xE7, 0xE7, 0xE7, 0xE7]
  let base_addr_1 := [0xC2, 0xC2, 0xC2, 0xC2]
  let addr_prefixes := [0xE7, 0xC2, 0xC3, 0xC4, 0xC5, 0xC6, 0xC7, 0xC8]
  let config : esb_config :=
    { retransmit_delay := 0, retransmit_count := 0, selective_auto_ack := true,
      use_fast_ramp_up := if P.CONFIG_ESB_FAST_SWITCHING then some true else none }
  let e1 := [Effect.esb_init config]
  if I.esb_init ≠ 0 then (I.esb_init, e1)
  else
    let e2 := e1 ++ [Effect.esb_set_base_address_0 base_addr_0]
    if I.esb_set_base_address_0 ≠ 0 then (I.esb_set_base_address_0, e2)
    else
      let e3 := e2 ++ [Effect.esb_set_base_address_1 base_addr_1]
      if I.esb_set_base_address_1 ≠ 0 then (I.esb_set_base_address_1, e3)
      else
        let e4 := e3 ++ [Effect.esb_set_prefixes addr_prefixes addr_prefixes.length]
        if I.esb_set_prefixes ≠ 0 then (I.esb_set_prefixes, e4)
        else (0, e4)

/-- How main ends: by a return statement, or inside the endless k_sleep loop
of lines 249 to 251 with the timer running. -/
inductive MainOutcome where
  | returned (rc : Int)
  | sleeping

/-- The assignments of lines 240 to 242; the length field is a uint8_t. -/
def main_setup (s : State) : State :=
  { s with tx_payload :=
    { s.tx_payload with pipe := 0, length := sizeof_audio_samples % 256, noack := true } }

/-- The function main; none when clocks_start does not return within the
fuel. -/
def main (v : ClockControl) (P : Platform) (O : ClockOracle) (I : InitOracle) (fuel : Nat)
    (s : State) : Option (MainOutcome × State × List Effect) :=
  match clocks_start v P O fuel with
  | none => none
  | some (err, tr) =>
    let e1 := Effect.LOG_INF LogMsg.banner :: tr
    if err ≠ 0 then some (MainOutcome.returned 0, s, e1)
    else
      let e2 := e1 ++ [Effect.dk_leds_init]
      if I.dk_leds_init ≠ 0 then
        some (MainOutcome.returned 0, s,
          e2 ++ [Effect.LOG_ERR (LogMsg.leds_init_failed I.dk_leds_init)])
      else
        let r := esb_initialize P I
        let e3 := e2 ++ r.2
        if r.1 ≠ 0 then
          some (MainOutcome.returned 0, s, e3 ++ [Effect.LOG_ERR (LogMsg.esb_init_failed r.1)])
        else
          some (MainOutcome.sleeping, main_setup s,
            e3 ++ [Effect.LOG_INF LogMsg.init_complete, Effect.LOG_INF LogMsg.sending_test_packet,
                   Effect.k_timer_start 2000 2000, Effect.k_sleep 10])

/-! ## States the running program can be in -/

/-- States reachable from the static initialisers by main's assignments and
any sequence of handler runs. -/
inductive Reachable (P : Platform) : State → Prop where
  | init : Reachable P init_state
  | setup (s : State) : Reachable P s → Reachable P (main_setup s)
  | tick (s : State) (w : Int) : Reachable P s → Reachable P (sample_handler P s w).1
  | event (s : State) (e : esb_evt) : Reachable P s → Reachable P (event_handler s e).1

/-- The uint16_t sample stored at sample index i of a payload byte buffer. -/
def payload_sample (p : esb_payload) (i : Nat) : Nat :=
  p.data (2 * i) + 256 * p.data (2 * i + 1)

/-- Number of the four LED lines whose state differs between two masks. -/
def lines_differing (P : Platform) (x y : Nat) : Nat :=
  ([P.DK_LED1, P.DK_LED2, P.DK_LED3, P.DK_LED4].filter
    (fun p => x.testBit p != y.testBit p)).length

/-- What every reachable state satisfies: the samples are equal to one
another and fit 16 bits, and the payload bytes 0 to 3 hold two copies of one
16-bit value. -/
def Uniform (s : State) : Prop :=
  (∀ i, i < 126 → s.audio_samples i = s.audio_samples 0) ∧
    s.audio_samples 0 < 65536 ∧
    s.tx_payload.data 1 = s.tx_payload.data 3 ∧
    s.tx_payload.data 2 < 256

/-- Number of sys_notify_fetch_result calls in a trace. -/
def polls (tr : List Effect) : Nat :=
  (tr.filter (fun e => match e with
    | Effect.sys_notify_fetch_result => true
    | _ => false)).length

/-- The interleaving in which every tick is followed by a completion event
before the next tick: n rounds of a successful tick and a TX_SUCCESS event. -/
def rounds : Nat → List Action
  | 0 => []
  | n + 1 => rounds n ++ [Action.tick 0, Action.event ⟨esb_evt_id.ESB_EVENT_TX_SUCCESS⟩]

/-! ## Basic facts about the handlers -/

theorem sample_handler_not_ready (P : Platform) (s : State) (w : Int) (h : s.ready = false) :
    sample_handler P s w = (s, [Effect.LOG_ERR LogMsg.not_ready]) := by
  simp [sample_handler, h]

theorem sample_handler_ready_false (P : Platform) (s : State) (w : Int) :
    (sample_handler P s w).1.ready = false := by
  cases h : s.ready
  · rw [sample_handler_not_ready P s w h]; exact h
  · by_cases hw : w = 0 <;> simp [sample_handler, h, hw]

theorem sample_handler_writes (P : Platform) (s : State) (w : Int) :
    writes (sample_handler P s w).2 = if s.ready then 1 else 0 := by
  cases h : s.ready
  · rw [sample_handler_not_ready P s w h]; rfl
  · by_cases hw : w = 0 <;>
      simp [sample_handler, h, hw, writes, leds_update, Effect.isWrite, List.filter]

theorem event_handler_state (s : State) (e : esb_evt) :
    (event_handler s e).1 = { s with ready := true } := by
  unfold event_handler
  cases e.evt_id <;> rfl

theorem event_handler_writes (s : State) (e : esb_evt) :
    writes (event_handler s e).2 = 0 := by
  unfold event_handler
  cases e.evt_id <;> rfl

theorem writes_append (a b : List Effect) : writes (a ++ b) = writes a + writes b := by
  simp [writes]

theorem run_append (P : Platform) (s : State) (xs ys : List Action) :
    run P s (xs ++ ys) =
      ((run P (run P s xs).1 ys).1, (run P s xs).2 ++ (run P (run P s xs).1 ys).2) := by
  induction xs generalizing s with
  | nil => simp [run]
  | cons a rest ih => simp [run, ih, List.append_assoc]

/-- Ticks that start with the slot taken neither write nor change the state. -/
theorem ticks_not_ready (P : Platform) (seg : List Action) (s : State)
    (hseg : ∀ a ∈ seg, a.isTick = true) (h : s.ready = false) :
    (run P s seg).1 = s ∧ writes (run P s seg).2 = 0 := by
  induction seg with
  | nil => simp [run, writes]
  | cons a rest ih =>
    have ha := hseg a (List.mem_cons_self a rest)
    have hrest : ∀ b ∈ rest, b.isTick = true := fun b hb => hseg b (List.mem_cons_of_mem a hb)
    cases a with
    | event e => simp [Action.isTick] at ha
    | tick w =>
      have hs := sample_handler_not_ready P s w h
      have ih2 := ih hrest
      simp only [run, step, hs, writes_append]
      refine ⟨ih2.1, ?_⟩
      rw [ih2.2]; rfl

/-- A run of ticks writes at most once, from any state. -/
theorem ticks_write_le_one (P : Platform) (seg : List Action) (s : State)
    (hseg : ∀ a ∈ seg, a.isTick = true) : writes (run P s seg).2 ≤ 1 := by
  cases seg with
  | nil => simp [run, writes]
  | cons a rest =>
    have ha := hseg a (List.mem_cons_self a rest)
    have hrest : ∀ b ∈ rest, b.isTick = true := fun b hb => hseg b (List.mem_cons_of_mem a hb)
    cases a with
    | event e => simp [Action.isTick] at ha
    | tick w =>
      have h0 := ticks_not_ready P rest (sample_handler P s w).1 hrest
        (sample_handler_ready_false P s w)
      simp only [run, step, writes_append, h0.2, sample_handler_writes]
      split <;> simp

/-! ## C1: one submission per release -/

/-- C1. In any interleaving of timer ticks and completion events, started in
any state, a stretch of consecutive ticks (the ticks between two events, or
after the last event) contains at most one call of esb_write_payload,
whatever values the writes return; every tick leaves ready = false, in
particular one whose write failed, and the ticks after it submit nothing
until an event arrives. -/
theorem one_write_between_events (P : Platform) (s : State) (pre seg post : List Action)
    (hseg : ∀ a ∈ seg, a.isTick = true) :
    (run P s (pre ++ seg ++ post)).2 =
        (run P s pre).2 ++ (run P (run P s pre).1 seg).2 ++
          (run P (run P (run P s pre).1 seg).1 post).2 ∧
      writes (run P (run P s pre).1 seg).2 ≤ 1 ∧
      (∀ w : Int, w ≠ 0 → (sample_handler P s w).1.ready = false) ∧
      (∀ w : Int, w ≠ 0 →
        writes (run P (sample_handler P s w).1 seg).2 = 0) := by
  refine ⟨?_, ticks_write_le_one P seg _ hseg, fun w _ => sample_handler_ready_false P s w,
    fun w _ => (ticks_not_ready P seg _ hseg (sample_handler_ready_false P s w)).2⟩
  rw [run_append, run_append]

/-- C1 at a concrete interleaving: event, two ticks (the first write fails),
event. -/
theorem one_write_between_events_witness :
    writes (run nrfPlatform
      (run nrfPlatform init_state [Action.event ⟨esb_evt_id.ESB_EVENT_TX_FAILED⟩]).1
      [Action.tick (-5), Action.tick 0]).2 ≤ 1 :=
  (one_write_between_events nrfPlatform init_state
    [Action.event ⟨esb_evt_id.ESB_EVENT_TX_FAILED⟩] [Action.tick (-5), Action.tick 0]
    [Action.event ⟨esb_evt_id.ESB_EVENT_TX_SUCCESS⟩]
    (by simp [Action.isTick])).2.1

/-! ## The state after a tick -/

theorem increment_fold (n : Nat) (a : Nat → Nat) (i : Nat) :
    ((List.range n).foldl (fun b j => Function.update b j ((b j + 1) % 65536)) a) i =
      if i < n then (a i + 1) % 65536 else a i := by
  induction n with
  | zero => simp
  | succ n ih =>
    rw [List.range_succ, List.foldl_append]
    simp only [List.foldl_cons, List.foldl_nil]
    by_cases h : i = n
    · subst h
      rw [Function.update_same, ih]
      simp
    · rw [Function.update_noteq h, ih]
      by_cases h1 : i < n
      · have h2 : i < n + 1 := Nat.lt_succ_of_lt h1
        simp [h1, h2]
      · have h2 : ¬ i < n + 1 := fun h3 =>
          (Nat.lt_succ_iff_lt_or_eq.mp h3).elim h1 h
        simp [h1, h2]

theorem increment_samples_apply (a : Nat → Nat) (i : Nat) :
    increment_samples a i = if i < NUM_SAMPLES then (a i + 1) % 65536 else a i :=
  increment_fold NUM_SAMPLES a i

theorem sample_handler_ready_samples (P : Platform) (s : State) (w : Int) (h : s.ready = true) :
    (sample_handler P s w).1.audio_samples = increment_samples s.audio_samples := by
  by_cases hw : w = 0 <;> simp [sample_handler, h, hw]

theorem sample_handler_ready_payload (P : Platform) (s : State) (w : Int) (h : s.ready = true) :
    (sample_handler P s w).1.tx_payload =
      { s.tx_payload with data := memcpy s.tx_payload.data s.audio_samples sizeof_audio_samples } := by
  by_cases hw : w = 0 <;> simp [sample_handler, h, hw]

theorem sample_handler_ready_trace (P : Platform) (s : State) (w : Int) (h : s.ready = true) :
    (sample_handler P s w).2 =
      [Effect.esb_flush_tx] ++ leds_update P (s.tx_payload.data 1) ++
        [Effect.esb_write_payload
          { s.tx_payload with
            data := memcpy s.tx_payload.data s.audio_samples sizeof_audio_samples }] ++
        (if w ≠ 0 then [Effect.LOG_ERR (LogMsg.payload_write_failed w)] else []) := by
  simp [sample_handler, h]

theorem sample_handler_ready_counter (P : Platform) (s : State) (w : Int) (h : s.ready = true) :
    (sample_handler P s w).1.packets_send =
      if w ≠ 0 then s.packets_send else int_wrap (s.packets_send + 1) := by
  by_cases hw : w = 0 <;> simp [sample_handler, h, hw]

/-! ## C2: evolution of the sample buffer -/

/-- C2, as stated, fails: from an all-2 buffer with ready = false one tick
leaves element 0 at 2, not at (2 + 1) mod 2^16 = 3. -/
theorem overrun_tick_keeps_samples :
    (sample_handler nrfPlatform
        { ready := false, tx_payload := init_state.tx_payload,
          audio_samples := fun _ => 2, packets_send := 2 } 0).1.audio_samples 0 = 2 ∧
      (sample_handler nrfPlatform
        { ready := false, tx_payload := init_state.tx_payload,
          audio_samples := fun _ => 2, packets_send := 2 } 0).1.audio_samples 0 ≠
        (2 + 1) % 65536 := by
  constructor
  · rfl
  · show (2 : Nat) ≠ (2 + 1) % 65536
    decide

/-- C2, amended. A tick that finds ready = true leaves every element
i < 126 of audio_samples at (previous value + 1) mod 2^16 and the indices
from 126 on untouched, whatever esb_write_payload returns; a tick that finds
ready = false leaves audio_samples unchanged. -/
theorem tick_samples (P : Platform) (s : State) (w : Int) :
    (s.ready = true →
      (∀ i, i < 126 → (sample_handler P s w).1.audio_samples i = (s.audio_samples i + 1) % 65536) ∧
      (∀ i, 126 ≤ i → (sample_handler P s w).1.audio_samples i = s.audio_samples i)) ∧
    (s.ready = false → (sample_handler P s w).1.audio_samples = s.audio_samples) := by
  refine ⟨fun h => ⟨fun i hi => ?_, fun i hi => ?_⟩, fun h => ?_⟩
  · rw [sample_handler_ready_samples P s w h, increment_samples_apply]
    simp [NUM_SAMPLES, hi]
  · rw [sample_handler_ready_samples P s w h, increment_samples_apply]
    have : ¬ i < NUM_SAMPLES := by simp [NUM_SAMPLES]; omega
    simp [this]
  · rw [sample_handler_not_ready P s w h]

/-- C2 amended, at the all-2 buffer: with the slot free element 5 becomes 3
although the write fails, with the slot taken the buffer stays as it was. -/
theorem tick_samples_witness :
    (sample_handler nrfPlatform
        { ready := true, tx_payload := init_state.tx_payload,
          audio_samples := fun _ => 2, packets_send := 2 } (-5)).1.audio_samples 5 = 3 ∧
      (sample_handler nrfPlatform
        { ready := false, tx_payload := init_state.tx_payload,
          audio_samples := fun _ => 2, packets_send := 2 } 0).1.audio_samples = fun _ => 2 :=
  ⟨((tick_samples nrfPlatform
        { ready := true, tx_payload := init_state.tx_payload,
          audio_samples := fun _ => 2, packets_send := 2 } (-5)).1 rfl).1 5 (by decide),
   (tick_samples nrfPlatform
        { ready := false, tx_payload := init_state.tx_payload,
          audio_samples := fun _ => 2, packets_send := 2 } 0).2 rfl⟩

/-! ## C3: the transmit counter -/

/-- C3, as stated, fails: at packets_send = INT_MAX a tick with the slot
free and a successful write leaves INT_MIN in the counter, not
INT_MAX + 1, which no int can hold. -/
theorem counter_wraps_at_int_max :
    (sample_handler nrfPlatform { init_state with packets_send := INT_MAX } 0).1.packets_send
        = INT_MIN ∧
      (sample_handler nrfPlatform { init_state with packets_send := INT_MAX } 0).1.packets_send
        ≠ INT_MAX + 1 := by
  have h : (sample_handler nrfPlatform { init_state with packets_send := INT_MAX } 0).1.packets_send
      = INT_MIN := by
    rw [sample_handler_ready_counter _ _ _ rfl]
    decide
  exact ⟨h, by rw [h]; decide⟩

/-- C3, amended. For every state whose counter is an int below INT_MAX, a
tick with ready = true and a write returning 0 adds exactly 1 to
packets_send; for every state, a tick with ready = false or with a write
returning nonzero leaves packets_send unchanged, and so does event_handler. -/
theorem tick_counter (P : Platform) (s : State) (w : Int) :
    (s.ready = true → w = 0 → INT_MIN ≤ s.packets_send → s.packets_send < INT_MAX →
      (sample_handler P s w).1.packets_send = s.packets_send + 1) ∧
    (s.ready = false ∨ w ≠ 0 → (sample_handler P s w).1.packets_send = s.packets_send) ∧
    (∀ e : esb_evt, (event_handler s e).1.packets_send = s.packets_send) := by
  refine ⟨fun h hw hlo hhi => ?_, fun h => ?_, fun e => ?_⟩
  · rw [sample_handler_ready_counter P s w h]
    simp only [hw, ne_eq, not_true_eq_false, if_false, int_wrap]
    simp only [INT_MIN, INT_MAX] at hlo hhi
    omega
  · cases hr : s.ready
    · rw [sample_handler_not_ready P s w hr]
    · rcases h with h | h
      · rw [hr] at h; cases h
      · rw [sample_handler_ready_counter P s w hr]
        simp [h]
  · rw [event_handler_state]

/-- C3 amended, at the initial state: the first successful tick counts 1, a
failed write and an overrun count nothing. -/
theorem tick_counter_witness :
    (sample_handler nrfPlatform init_state 0).1.packets_send = 0 + 1 ∧
      (sample_handler nrfPlatform init_state (-5)).1.packets_send = 0 :=
  ⟨(tick_counter nrfPlatform init_state 0).1 rfl rfl (by decide) (by decide),
   (tick_counter nrfPlatform init_state (-5)).2.1 (Or.inr (by decide))⟩

/-! ## C5: the completion callback -/

/-- C5. Whatever the event identifier, event_handler leaves ready = true and
audio_samples, tx_payload and packets_send as they were; the tick that
follows calls esb_write_payload exactly once, on the payload filled from the
current samples. -/
theorem event_releases_slot (P : Platform) (s : State) (e : esb_evt) (w : Int) :
    (event_handler s e).1.ready = true ∧
      (event_handler s e).1.audio_samples = s.audio_samples ∧
      (event_handler s e).1.tx_payload = s.tx_payload ∧
      (event_handler s e).1.packets_send = s.packets_send ∧
      writes (sample_handler P (event_handler s e).1 w).2 = 1 ∧
      (sample_handler P (event_handler s e).1 w).2.filter Effect.isWrite =
        [Effect.esb_write_payload
          { s.tx_payload with
            data := memcpy s.tx_payload.data s.audio_samples sizeof_audio_samples }] := by
  have hs := event_handler_state s e
  refine ⟨by rw [hs], by rw [hs], by rw [hs], by rw [hs], ?_, ?_⟩
  · rw [sample_handler_writes, hs]; rfl
  · rw [sample_handler_ready_trace P _ w (by rw [hs]), hs]
    by_cases hw : w = 0 <;> simp [hw, leds_update, Effect.isWrite]

/-! ## C6: the payload handed to the radio -/

theorem memcpy_even (dst src : Nat → Nat) (i : Nat) (hi : i < 126) :
    memcpy dst src sizeof_audio_samples (2 * i) = src i % 256 := by
  have h1 : 2 * i < sizeof_audio_samples := by
    simp only [sizeof_audio_samples, NUM_SAMPLES]; omega
  have h2 : 2 * i % 2 = 0 := by omega
  have h3 : 2 * i / 2 = i := by omega
  simp [memcpy, u16_byte, h1, h2, h3]

theorem memcpy_odd (dst src : Nat → Nat) (i : Nat) (hi : i < 126) :
    memcpy dst src sizeof_audio_samples (2 * i + 1) = src i / 256 % 256 := by
  have h1 : 2 * i + 1 < sizeof_audio_samples := by
    simp only [sizeof_audio_samples, NUM_SAMPLES]; omega
  have h2 : ¬ (2 * i + 1) % 2 = 0 := by omega
  have h3 : (2 * i + 1) / 2 = i := by omega
  simp [memcpy, u16_byte, h1, h2, h3]

theorem main_sleeping_state (v : ClockControl) (P : Platform) (O : ClockOracle) (I : InitOracle)
    (fuel : Nat) (s0 s : State) (tr : List Effect)
    (h : main v P O I fuel s0 = some (MainOutcome.sleeping, s, tr)) : s = main_setup s0 := by
  unfold main at h
  split at h
  · cases h
  · split at h
    · cases h
    · split at h
      · cases h
      · simp only [] at h
        split at h
        · cases h
        · simp only [Option.some.injEq, Prod.mk.injEq] at h
          exact h.2.1.symm

/-- C6. On a tick that finds ready = true, the only esb_write_payload call
receives the payload as stored after the copy; its data bytes 2i and 2i+1
are the low and the high byte of audio_samples[i] as it stood at the start
of the tick, for each i < 126, so the 252 bytes reproduce every 16-bit
sample; pipe, length and noack are what they were before the tick, which is
0, 252 and true when the state is the one main leaves behind. -/
theorem payload_is_sample_image (P : Platform) (s : State) (w : Int) (h : s.ready = true) :
    (sample_handler P s w).2.filter Effect.isWrite =
        [Effect.esb_write_payload (sample_handler P s w).1.tx_payload] ∧
      (∀ i, i < 126 →
        (sample_handler P s w).1.tx_payload.data (2 * i) = s.audio_samples i % 256 ∧
        (sample_handler P s w).1.tx_payload.data (2 * i + 1) = s.audio_samples i / 256 % 256) ∧
      (∀ i, i < 126 → s.audio_samples i < 65536 →
        payload_sample (sample_handler P s w).1.tx_payload i = s.audio_samples i) ∧
      (sample_handler P s w).1.tx_payload.pipe = s.tx_payload.pipe ∧
      (sample_handler P s w).1.tx_payload.length = s.tx_payload.length ∧
      (sample_handler P s w).1.tx_payload.noack = s.tx_payload.noack ∧
      (∀ (v : ClockControl) (O : ClockOracle) (I : InitOracle) (fuel : Nat) (s0 : State)
          (tr : List Effect), main v P O I fuel s0 = some (MainOutcome.sleeping, s, tr) →
        (sample_handler P s w).1.tx_payload.pipe = 0 ∧
        (sample_handler P s w).1.tx_payload.length = 252 ∧
        (sample_handler P s w).1.tx_payload.noack = true) := by
  have hp := sample_handler_ready_payload P s w h
  refine ⟨?_, fun i hi => ?_, fun i hi hlt => ?_, by rw [hp], by rw [hp], by rw [hp], ?_⟩
  · rw [sample_handler_ready_trace P s w h, hp]
    by_cases hw : w = 0 <;> simp [hw, leds_update, Effect.isWrite]
  · rw [hp]
    exact ⟨memcpy_even _ _ i hi, memcpy_odd _ _ i hi⟩
  · rw [hp]
    simp only [payload_sample]
    rw [memcpy_even _ _ i hi, memcpy_odd _ _ i hi]
    omega
  · intro v O I fuel s0 tr hm
    have hs := main_sleeping_state v P O I fuel s0 s tr hm
    rw [hp, hs]
    simp [main_setup, sizeof_audio_samples, NUM_SAMPLES]

/-- C6 at the state main leaves behind: the first payload carries sample 7
(value 0) in bytes 14 and 15. -/
theorem payload_is_sample_image_witness :
    ((sample_handler nrfPlatform (main_setup init_state) 0).1.tx_payload.data (2 * 7) = 0 % 256 ∧
      (sample_handler nrfPlatform (main_setup init_state) 0).1.tx_payload.data (2 * 7 + 1)
        = 0 / 256 % 256) ∧
      ((sample_handler nrfPlatform (main_setup init_state) 0).1.tx_payload.pipe = 0 ∧
        (sample_handler nrfPlatform (main_setup init_state) 0).1.tx_payload.length = 252 ∧
        (sample_handler nrfPlatform (main_setup init_state) 0).1.tx_payload.noack = true) :=
  ⟨(payload_is_sample_image nrfPlatform (main_setup init_state) 0 rfl).2.1 7 (by decide),
   (payload_is_sample_image nrfPlatform (main_setup init_state) 0 rfl).2.2.2.2.2.2
      ClockControl.NRF { clk_mgr := true, request := 0, fetch := fun _ => (0, 0) }
      ⟨0, 0, 0, 0, 0⟩ 1 init_state _ rfl⟩

/-! ## C7: the displayed status -/

theorem uniform_init : Uniform init_state := by
  refine ⟨fun i _ => rfl, ?_, rfl, ?_⟩
  · show (0 : Nat) < 65536
    decide
  · show (0 : Nat) < 256
    decide

theorem uniform_tick (P : Platform) (s : State) (w : Int) (hu : Uniform s) :
    Uniform (sample_handler P s w).1 := by
  cases h : s.ready
  · rw [sample_handler_not_ready P s w h]; exact hu
  · obtain ⟨h1, _, _, _⟩ := hu
    have hp := sample_handler_ready_payload P s w h
    have hs := sample_handler_ready_samples P s w h
    refine ⟨fun i hi => ?_, ?_, ?_, ?_⟩
    · rw [hs, increment_samples_apply, increment_samples_apply, h1 i hi]
      simp [NUM_SAMPLES, hi]
    · rw [hs, increment_samples_apply]
      have h0 : (0 : Nat) < NUM_SAMPLES := by decide
      rw [if_pos h0]
      exact Nat.mod_lt _ (by decide)
    · rw [hp]
      have e1 := memcpy_odd s.tx_payload.data s.audio_samples 0 (by decide)
      have e3 := memcpy_odd s.tx_payload.data s.audio_samples 1 (by decide)
      simp only [Nat.mul_zero, Nat.zero_add, Nat.mul_one] at e1 e3
      show memcpy s.tx_payload.data s.audio_samples sizeof_audio_samples 1 =
        memcpy s.tx_payload.data s.audio_samples sizeof_audio_samples 3
      rw [e1, e3, h1 1 (by decide)]
    · rw [hp]
      have e2 := memcpy_even s.tx_payload.data s.audio_samples 1 (by decide)
      simp only [Nat.mul_one] at e2
      show memcpy s.tx_payload.data s.audio_samples sizeof_audio_samples 2 < 256
      rw [e2]
      omega

theorem uniform_reachable (P : Platform) (s : State) (hR : Reachable P s) : Uniform s := by
  induction hR with
  | init => exact uniform_init
  | setup s _ ih => exact ih
  | tick s w _ ih => exact uniform_tick P s w ih
  | event s e _ ih =>
    rw [event_handler_state]
    exact ih

/-- A run without a write leaves payload and samples as they were. -/
theorem quiet_run (P : Platform) (acts : List Action) (s : State)
    (hq : writes (run P s acts).2 = 0) :
    (run P s acts).1.tx_payload = s.tx_payload ∧
      (run P s acts).1.audio_samples = s.audio_samples := by
  induction acts generalizing s with
  | nil => exact ⟨rfl, rfl⟩
  | cons a rest ih =>
    simp only [run, writes_append] at hq
    have hq1 : writes (step P s a).2 = 0 := by omega
    have hq2 : writes (run P (step P s a).1 rest).2 = 0 := by omega
    have ih2 := ih (step P s a).1 hq2
    cases a with
    | tick w =>
      simp only [step, sample_handler_writes] at hq1
      have hr : s.ready = false := by
        cases hr : s.ready
        · rfl
        · rw [hr] at hq1; simp at hq1
      have hs := sample_handler_not_ready P s w hr
      simp only [run, step, hs] at ih2 ⊢
      exact ih2
    | event e =>
      have hs := event_handler_state s e
      simp only [run, step] at ih2 ⊢
      rw [hs] at ih2 ⊢
      exact ih2

/-- C7. In every reachable state with the slot free, the byte that the tick
passes to leds_update equals the high byte of the payload sample of index 1
(payload bytes 2 and 3) as the payload stood before this tick copies into
it; and once a tick has filled the payload, the next transmitting tick,
reached through any handler runs that write nothing, passes the high byte of
the value audio_samples[1] had at the filling tick, while audio_samples[1]
itself is already one step ahead.  The byte read is tx_payload.data[1], the
high byte of sample 0; it agrees with the high byte of sample 1 because in
reachable states all samples are equal. -/
theorem status_lags_one_period (P : Platform) (s : State) (w : Int)
    (hR : Reachable P s) (h : s.ready = true) :
    s.tx_payload.data 1 = payload_sample s.tx_payload 1 / 256 ∧
      (sample_handler P s w).2.take 2 =
        [Effect.esb_flush_tx] ++ leds_update P (payload_sample s.tx_payload 1 / 256) ∧
      (∀ (acts : List Action) (w2 : Int),
        writes (run P (sample_handler P s w).1 acts).2 = 0 →
        (run P (sample_handler P s w).1 acts).1.ready = true →
        payload_sample (run P (sample_handler P s w).1 acts).1.tx_payload 1 = s.audio_samples 1 ∧
        (sample_handler P (run P (sample_handler P s w).1 acts).1 w2).2.take 2 =
          [Effect.esb_flush_tx] ++ leds_update P (s.audio_samples 1 / 256) ∧
        (run P (sample_handler P s w).1 acts).1.audio_samples 1 =
          (s.audio_samples 1 + 1) % 65536) := by
  obtain ⟨u1, u2, u3, u4⟩ := uniform_reachable P s hR
  have hv : s.tx_payload.data 1 = payload_sample s.tx_payload 1 / 256 := by
    rw [u3]
    show s.tx_payload.data 3 = (s.tx_payload.data 2 + 256 * s.tx_payload.data 3) / 256
    omega
  refine ⟨hv, ?_, fun acts w2 hq hr2 => ?_⟩
  · rw [sample_handler_ready_trace P s w h, hv]
    simp [leds_update]
  · obtain ⟨q1, q2⟩ := quiet_run P acts _ hq
    have hp := sample_handler_ready_payload P s w h
    have hs := sample_handler_ready_samples P s w h
    have e1 := memcpy_odd s.tx_payload.data s.audio_samples 0 (by decide)
    have e2 := memcpy_even s.tx_payload.data s.audio_samples 1 (by decide)
    have e3 := memcpy_odd s.tx_payload.data s.audio_samples 1 (by decide)
    simp only [Nat.mul_zero, Nat.zero_add, Nat.mul_one] at e1 e2 e3
    have h10 := u1 1 (by decide)
    have d1 : (run P (sample_handler P s w).1 acts).1.tx_payload.data 1 =
        s.audio_samples 1 / 256 := by
      rw [q1, hp]
      show memcpy s.tx_payload.data s.audio_samples sizeof_audio_samples 1 = _
      rw [e1, h10]
      omega
    refine ⟨?_, ?_, ?_⟩
    · rw [q1, hp]
      show memcpy s.tx_payload.data s.audio_samples sizeof_audio_samples (2 * 1) +
        256 * memcpy s.tx_payload.data s.audio_samples sizeof_audio_samples (2 * 1 + 1) = _
      simp only [Nat.mul_one]
      rw [e2, e3]
      omega
    · rw [sample_handler_ready_trace P _ w2 hr2, d1]
      simp [leds_update]
    · rw [q2, hs, increment_samples_apply]
      simp [NUM_SAMPLES]

/-- Every state met along a run from a reachable state is reachable. -/
theorem reachable_run (P : Platform) (acts : List Action) (s : State) (hR : Reachable P s) :
    Reachable P (run P s acts).1 := by
  induction acts generalizing s with
  | nil => exact hR
  | cons a rest ih =>
    cases a with
    | tick w => exact ih _ (Reachable.tick s w hR)
    | event e => exact ih _ (Reachable.event s e hR)

/-- The state after n rounds from the initial state: the slot is free, every
sample is n mod 2^16, and from the first round on the payload holds the
little-endian image of the previous sample value. -/
theorem rounds_state (P : Platform) (n : Nat) :
    (run P init_state (rounds n)).1.ready = true ∧
      (∀ i, i < 126 → (run P init_state (rounds n)).1.audio_samples i = n % 65536) ∧
      (0 < n → ∀ i, i < 126 →
        (run P init_state (rounds n)).1.tx_payload.data (2 * i) = (n - 1) % 65536 % 256 ∧
        (run P init_state (rounds n)).1.tx_payload.data (2 * i + 1)
          = (n - 1) % 65536 / 256 % 256) := by
  induction n with
  | zero => exact ⟨rfl, fun i _ => rfl, fun h => absurd h (Nat.lt_irrefl 0)⟩
  | succ n ih =>
    obtain ⟨hr, hs, _⟩ := ih
    have hstep : (run P init_state (rounds (n + 1))).1 =
        { (sample_handler P (run P init_state (rounds n)).1 0).1 with ready := true } := by
      simp only [rounds, run_append, run, step]
      rw [event_handler_state]
    have hsam := sample_handler_ready_samples P _ 0 hr
    have hpay := sample_handler_ready_payload P _ 0 hr
    rw [hstep]
    refine ⟨rfl, fun i hi => ?_, fun _ i hi => ?_⟩
    · show (sample_handler P (run P init_state (rounds n)).1 0).1.audio_samples i = _
      rw [hsam, increment_samples_apply, hs i hi]
      have hi2 : i < NUM_SAMPLES := hi
      rw [if_pos hi2]
      omega
    · show (sample_handler P (run P init_state (rounds n)).1 0).1.tx_payload.data (2 * i) = _ ∧
        (sample_handler P (run P init_state (rounds n)).1 0).1.tx_payload.data (2 * i + 1) = _
      rw [hpay]
      show memcpy _ _ sizeof_audio_samples (2 * i) = _ ∧
        memcpy _ _ sizeof_audio_samples (2 * i + 1) = _
      rw [memcpy_even _ _ i hi, memcpy_odd _ _ i hi, hs i hi, Nat.add_sub_cancel]
      exact ⟨rfl, rfl⟩

/-- C7 after 257 rounds of tick and completion event. The samples are 257 and
the payload, filled one round earlier, holds 256 in every sample, so its
bytes are 0, 1, 0, 1 and so on; the tick passes 1 = 256 / 256 to leds_update,
the high byte of payload sample 1 and not its low byte 0. After this tick
and one more event the next tick passes 257 / 256, from the value
audio_samples[1] had at the filling tick, while audio_samples[1] is 258. -/
theorem status_lags_one_period_witness :
    (run nrfPlatform init_state (rounds 257)).1.ready = true ∧
      (run nrfPlatform init_state (rounds 257)).1.audio_samples 1 = 257 ∧
      (run nrfPlatform init_state (rounds 257)).1.tx_payload.data 1 = 1 ∧
      (run nrfPlatform init_state (rounds 257)).1.tx_payload.data 2 = 0 ∧
      payload_sample (run nrfPlatform init_state (rounds 257)).1.tx_payload 1 = 256 ∧
      (sample_handler nrfPlatform (run nrfPlatform init_state (rounds 257)).1 0).2.take 2 =
        [Effect.esb_flush_tx] ++ leds_update nrfPlatform (256 / 256) ∧
      (sample_handler nrfPlatform
          (run nrfPlatform
            (sample_handler nrfPlatform (run nrfPlatform init_state (rounds 257)).1 0).1
            [Action.event ⟨esb_evt_id.ESB_EVENT_TX_FAILED⟩]).1 (-5)).2.take 2 =
        [Effect.esb_flush_tx] ++ leds_update nrfPlatform (257 / 256) ∧
      (run nrfPlatform
          (sample_handler nrfPlatform (run nrfPlatform init_state (rounds 257)).1 0).1
          [Action.event ⟨esb_evt_id.ESB_EVENT_TX_FAILED⟩]).1.audio_samples 1 =
        (257 + 1) % 65536 := by
  obtain ⟨hr, hs, hp⟩ := rounds_state nrfPlatform 257
  have hR := reachable_run nrfPlatform (rounds 257) init_state Reachable.init
  generalize (run nrfPlatform init_state (rounds 257)).1 = S at hr hs hp hR ⊢
  have hs1 : S.audio_samples 1 = 257 := by
    have h := hs 1 (by decide)
    norm_num at h
    exact h
  have hb1 : S.tx_payload.data 1 = 1 := by
    have h := (hp (by decide) 0 (by decide)).2
    norm_num at h
    exact h
  have hb2 : S.tx_payload.data 2 = 0 := by
    have h := (hp (by decide) 1 (by decide)).1
    norm_num at h
    exact h
  have hb3 : S.tx_payload.data 3 = 1 := by
    have h := (hp (by decide) 1 (by decide)).2
    norm_num at h
    exact h
  have hps : payload_sample S.tx_payload 1 = 256 := by
    show S.tx_payload.data 2 + 256 * S.tx_payload.data 3 = 256
    rw [hb2, hb3]
  have T := status_lags_one_period nrfPlatform S 0 hR hr
  have L := T.2.2 [Action.event ⟨esb_evt_id.ESB_EVENT_TX_FAILED⟩] (-5) rfl rfl
  have T2 := T.2.1
  rw [hps] at T2
  have L2 := L.2.1
  have L3 := L.2.2
  rw [hs1] at L2 L3
  exact ⟨hr, hs1, hb1, hb2, hps, T2, L2, L3⟩

/-! ## C4: start-up with the CONFIG_CLOCK_CONTROL_NRF driver -/

/-- Outcome of the polling loop when poll number start + n is the first one
with status 0. -/
theorem poll_loop_nrf_first (fetch : Nat → Int × Int) (n : Nat) :
    ∀ (start fuel : Nat), (∀ k, k < n → (fetch (start + k)).1 ≠ 0) →
      (fetch (start + n)).1 = 0 → n < fuel →
      ∃ tr, polls tr = n + 1 ∧ (∀ e ∈ tr, e.isBringUp = false) ∧
        poll_loop_nrf fetch fuel start =
          some (if (fetch (start + n)).2 ≠ 0 then LoopExit.ret (fetch (start + n)).2
            else LoopExit.done 0, tr) := by
  induction n with
  | zero =>
    intro start fuel _ hdone hfuel
    obtain ⟨f, rfl⟩ : ∃ f, fuel = f + 1 := ⟨fuel - 1, by omega⟩
    simp only [Nat.add_zero] at hdone ⊢
    by_cases hres : (fetch start).2 = 0
    · refine ⟨[Effect.sys_notify_fetch_result], rfl, ?_, ?_⟩
      · intro e he
        simp only [List.mem_singleton] at he
        subst he; rfl
      · simp [poll_loop_nrf, hdone, hres]
    · refine ⟨[Effect.sys_notify_fetch_result,
        Effect.LOG_ERR (LogMsg.clock_not_started (fetch start).2)], rfl, ?_, ?_⟩
      · intro e he
        simp only [List.mem_cons, List.mem_singleton, List.not_mem_nil, or_false] at he
        rcases he with he | he <;> subst he <;> rfl
      · simp [poll_loop_nrf, hdone, hres]
  | succ n ih =>
    intro start fuel hbusy hdone hfuel
    obtain ⟨f, rfl⟩ : ∃ f, fuel = f + 1 := ⟨fuel - 1, by omega⟩
    have h0 : (fetch start).1 ≠ 0 := by
      have := hbusy 0 (Nat.succ_pos n)
      simpa using this
    have hb2 : ∀ k, k < n → (fetch (start + 1 + k)).1 ≠ 0 := by
      intro k hk
      have := hbusy (k + 1) (Nat.succ_lt_succ hk)
      rwa [show start + (k + 1) = start + 1 + k by omega] at this
    have hd2 : (fetch (start + 1 + n)).1 = 0 := by
      rwa [show start + (n + 1) = start + 1 + n by omega] at hdone
    obtain ⟨tr, ht1, ht2, ht3⟩ := ih (start + 1) f hb2 hd2 (by omega)
    refine ⟨Effect.sys_notify_fetch_result :: tr, ?_, ?_, ?_⟩
    · simp only [polls, List.filter_cons_of_pos, List.length_cons] at ht1 ⊢
      omega
    · intro e he
      rcases List.mem_cons.mp he with he | he
      · subst he; rfl
      · exact ht2 e he
    · simp only [poll_loop_nrf, h0, false_and, if_false, ne_eq, not_false_eq_true, if_true, ht3]
      rw [show start + (n + 1) = start + 1 + n by omega]

/-- The polling loop makes no LED, radio or timer call. -/
theorem poll_loop_nrf_quiet (fetch : Nat → Int × Int) (fuel : Nat) :
    ∀ (n : Nat) (x : LoopExit) (tr : List Effect),
      poll_loop_nrf fetch fuel n = some (x, tr) → ∀ e ∈ tr, e.isBringUp = false := by
  induction fuel with
  | zero => intro n x tr h; simp [poll_loop_nrf] at h
  | succ f ih =>
    intro n x tr h
    unfold poll_loop_nrf at h
    simp only [] at h
    split at h
    · simp only [Option.some.injEq, Prod.mk.injEq] at h
      obtain ⟨_, rfl⟩ := h
      intro e he
      simp only [List.mem_cons, List.mem_singleton, List.not_mem_nil, or_false] at he
      rcases he with he | he <;> subst he <;> rfl
    · split at h
      · cases hrec : poll_loop_nrf fetch f (n + 1) with
        | none => rw [hrec] at h; cases h
        | some r =>
          obtain ⟨y, tr2⟩ := r
          rw [hrec] at h
          simp only [Option.some.injEq, Prod.mk.injEq] at h
          obtain ⟨_, rfl⟩ := h
          intro e he
          rcases List.mem_cons.mp he with he | he
          · subst he; rfl
          · exact ih (n + 1) y tr2 hrec e he
      · simp only [Option.some.injEq, Prod.mk.injEq] at h
        obtain ⟨_, rfl⟩ := h
        intro e he
        simp only [List.mem_singleton] at he
        subst he; rfl

theorem errata_calls_quiet (P : Platform) : ∀ e ∈ errata_calls P, e.isBringUp = false := by
  intro e he
  unfold errata_calls at he
  rcases List.mem_append.mp he with he | he
  · split at he
    · simp only [List.mem_singleton] at he
      subst he; rfl
    · cases he
  · split at he
    · simp only [List.mem_singleton] at he
      subst he; rfl
    · cases he

/-- The clock bring-up makes no LED, radio or timer call. -/
theorem clocks_start_nrf_quiet (P : Platform) (O : ClockOracle) (fuel : Nat) (r : Int)
    (tr : List Effect) (h : clocks_start_nrf P O fuel = some (r, tr)) :
    ∀ e ∈ tr, e.isBringUp = false := by
  unfold clocks_start_nrf at h
  split at h
  · simp only [Option.some.injEq, Prod.mk.injEq] at h
    obtain ⟨_, rfl⟩ := h
    intro e he
    simp only [List.mem_cons, List.mem_singleton, List.not_mem_nil, or_false] at he
    rcases he with he | he <;> subst he <;> rfl
  · simp only [] at h
    split at h
    · simp only [Option.some.injEq, Prod.mk.injEq] at h
      obtain ⟨_, rfl⟩ := h
      intro e he
      simp only [List.mem_cons, List.mem_singleton, List.not_mem_nil, or_false] at he
      rcases he with he | he | he | he <;> subst he <;> rfl
    · split at h
      · cases h
      · rename_i res ptr hloop
        simp only [Option.some.injEq, Prod.mk.injEq] at h
        obtain ⟨_, rfl⟩ := h
        intro e he
        rcases List.mem_append.mp he with he | he
        · simp only [List.mem_cons, List.mem_singleton, List.not_mem_nil, or_false] at he
          rcases he with he | he | he <;> subst he <;> rfl
        · exact poll_loop_nrf_quiet O.fetch fuel 0 _ ptr hloop e he
      · rename_i err ptr hloop
        simp only [Option.some.injEq, Prod.mk.injEq] at h
        obtain ⟨_, rfl⟩ := h
        intro e he
        simp only [List.append_assoc] at he
        rcases List.mem_append.mp he with he | he
        · simp only [List.mem_cons, List.mem_singleton, List.not_mem_nil, or_false] at he
          rcases he with he | he | he <;> subst he <;> rfl
        · rcases List.mem_append.mp he with he | he
          · exact poll_loop_nrf_quiet O.fetch fuel 0 _ ptr hloop e he
          · rcases List.mem_append.mp he with he | he
            · exact errata_calls_quiet P e he
            · simp only [List.mem_singleton] at he
              subst he; rfl

/-- C4. With the CONFIG_CLOCK_CONTROL_NRF driver: clocks_start returns
-ENXIO when no clock manager is obtained; returns the value of onoff_request
when that value is negative; otherwise, when poll number n is the first one
with status 0 and the fuel exceeds n, it polls n + 1 times and returns the
result code stored by poll n (0 on success); and whenever clocks_start
returns a nonzero value, main returns 0 with the state untouched after the
banner and the calls of clocks_start alone, none of which is dk_leds_init,
esb_init, an address setter or k_timer_start. -/
theorem clocks_start_nrf_contract (P : Platform) (O : ClockOracle) (I : InitOracle)
    (fuel : Nat) (s : State) :
    (O.clk_mgr = false →
      (clocks_start ClockControl.NRF P O fuel).map Prod.fst = some (-P.ENXIO)) ∧
    (O.clk_mgr = true → O.request < 0 →
      (clocks_start ClockControl.NRF P O fuel).map Prod.fst = some O.request) ∧
    (∀ n, O.clk_mgr = true → 0 ≤ O.request → (∀ k, k < n → (O.fetch k).1 ≠ 0) →
      (O.fetch n).1 = 0 → n < fuel →
      (clocks_start ClockControl.NRF P O fuel).map Prod.fst = some (O.fetch n).2 ∧
      (clocks_start ClockControl.NRF P O fuel).map (fun r => polls r.2) = some (n + 1)) ∧
    (∀ r tr, clocks_start ClockControl.NRF P O fuel = some (r, tr) → r ≠ 0 →
      main ClockControl.NRF P O I fuel s =
        some (MainOutcome.returned 0, s, Effect.LOG_INF LogMsg.banner :: tr) ∧
      ∀ e ∈ Effect.LOG_INF LogMsg.banner :: tr, e.isBringUp = false) := by
  refine ⟨fun h => ?_, fun h hreq => ?_, fun n h hreq hbusy hdone hfuel => ?_,
    fun r tr hcs hr => ⟨?_, ?_⟩⟩
  · simp [clocks_start, clocks_start_nrf, h]
  · simp [clocks_start, clocks_start_nrf, h, hreq]
  · have hb : ∀ k, k < n → (O.fetch (0 + k)).1 ≠ 0 := by
      intro k hk; rw [Nat.zero_add]; exact hbusy k hk
    have hd : (O.fetch (0 + n)).1 = 0 := by rw [Nat.zero_add]; exact hdone
    obtain ⟨tr, ht1, _, ht3⟩ := poll_loop_nrf_first O.fetch n 0 fuel hb hd hfuel
    rw [Nat.zero_add] at ht3
    have hnot : ¬ O.request < 0 := not_lt.mpr hreq
    by_cases hres : (O.fetch n).2 = 0
    · simp only [hres, ne_eq, not_true_eq_false, if_false] at ht3
      have hpe : polls (errata_calls P) = 0 := by
        unfold errata_calls polls
        cases P.NRF54L_ERRATA_20_PRESENT <;> cases P.nrf54l_errata_20 <;>
          cases P.NRF54LM20A_ENGA_XXAA <;> rfl
      simp only [polls] at ht1 hpe
      simp [clocks_start, clocks_start_nrf, h, hnot, ht3, hres, polls, List.filter_append, ht1,
        hpe]
    · simp only [hres, ne_eq, not_false_eq_true, if_true] at ht3
      simp only [polls] at ht1
      simp [clocks_start, clocks_start_nrf, h, hnot, ht3, polls, List.filter_append, ht1]
  · simp [main, hcs, hr]
  · intro e he
    rcases List.mem_cons.mp he with he | he
    · subst he; rfl
    · exact clocks_start_nrf_quiet P O fuel r tr hcs e he

/-- C4 on concrete oracles: no manager gives -6; a request returning -5
gives -5; two busy polls followed by a completed poll with result -16 give
-16 after three polls, and main then returns without any bring-up call. -/
theorem clocks_start_nrf_contract_witness :
    (clocks_start ClockControl.NRF nrfPlatform
        { clk_mgr := false, request := 0, fetch := fun _ => (0, 0) } 5).map Prod.fst
        = some (-nrfPlatform.ENXIO) ∧
      (clocks_start ClockControl.NRF nrfPlatform
        { clk_mgr := true, request := -5, fetch := fun _ => (0, 0) } 5).map Prod.fst
        = some (-5) ∧
      (clocks_start ClockControl.NRF nrfPlatform
        { clk_mgr := true, request := 0, fetch := fun k => if k < 2 then (-11, 0) else (0, -16) }
        5).map Prod.fst = some (-16) ∧
      main ClockControl.NRF nrfPlatform
        { clk_mgr := true, request := 0, fetch := fun k => if k < 2 then (-11, 0) else (0, -16) }
        ⟨0, 0, 0, 0, 0⟩ 5 init_state =
        some (MainOutcome.returned 0, init_state,
          [Effect.LOG_INF LogMsg.banner,
           Effect.z_nrf_clock_control_get_onoff, Effect.sys_notify_init_spinwait,
           Effect.onoff_request, Effect.sys_notify_fetch_result, Effect.sys_notify_fetch_result,
           Effect.sys_notify_fetch_result, Effect.LOG_ERR (LogMsg.clock_not_started (-16))]) :=
  ⟨(clocks_start_nrf_contract nrfPlatform
      { clk_mgr := false, request := 0, fetch := fun _ => (0, 0) } ⟨0, 0, 0, 0, 0⟩ 5
      init_state).1 rfl,
   (clocks_start_nrf_contract nrfPlatform
      { clk_mgr := true, request := -5, fetch := fun _ => (0, 0) } ⟨0, 0, 0, 0, 0⟩ 5
      init_state).2.1 rfl (by decide),
   ((clocks_start_nrf_contract nrfPlatform
      { clk_mgr := true, request := 0, fetch := fun k => if k < 2 then (-11, 0) else (0, -16) }
      ⟨0, 0, 0, 0, 0⟩ 5 init_state).2.2.1 2 rfl (by decide)
      (by intro k hk; simp [hk]) (by simp) (by decide)).1,
   ((clocks_start_nrf_contract nrfPlatform
      { clk_mgr := true, request := 0, fetch := fun k => if k < 2 then (-11, 0) else (0, -16) }
      ⟨0, 0, 0, 0, 0⟩ 5 init_state).2.2.2 (-16)
      [Effect.z_nrf_clock_control_get_onoff, Effect.sys_notify_init_spinwait,
       Effect.onoff_request, Effect.sys_notify_fetch_result, Effect.sys_notify_fetch_result,
       Effect.sys_notify_fetch_result, Effect.LOG_ERR (LogMsg.clock_not_started (-16))]
      rfl (by decide)).1⟩

/-! ## C10: start-up with the CONFIG_CLOCK_CONTROL_NRF2 driver -/

/-- C10, evaluated. With the CONFIG_CLOCK_CONTROL_NRF2 driver clocks_start
returns 0 although nrf_clock_control_request returned -5, and returns 0
although the only poll reported status -22 and no completion. -/
theorem clocks_start_nrf2_returns_zero_on_failure :
    (clocks_start ClockControl.NRF2 nrfPlatform
        { clk_mgr := true, request := -5, fetch := fun _ => (0, 0) } 1).map Prod.fst = some 0 ∧
      (clocks_start ClockControl.NRF2 nrfPlatform
        { clk_mgr := true, request := 0, fetch := fun _ => (-22, 0) } 1).map Prod.fst
        = some 0 := by
  constructor
  · simp [clocks_start, clocks_start_nrf2, poll_loop_nrf2, nrfPlatform]
  · simp [clocks_start, clocks_start_nrf2, poll_loop_nrf2, nrfPlatform]

/-! ## C8 and C9: the LED mask -/

theorem ite_bit_testBit (c : Bool) (p q : Nat) :
    (if c then BIT p else 0).testBit q = (c && decide (p = q)) := by
  cases c
  · simp
  · simp [BIT, Nat.testBit_two_pow]

/-- Bit q of the mask, in terms of the four window tests. -/
theorem leds_mask_testBit (P : Platform) (value q : Nat) :
    (leds_mask P value).testBit q =
      ((!(decide (value % 8 > 0) && decide (value % 8 ≤ 4)) && decide (P.DK_LED1 = q)) ||
       (!(decide (value % 8 > 1) && decide (value % 8 ≤ 5)) && decide (P.DK_LED2 = q)) ||
       (!(decide (value % 8 > 2) && decide (value % 8 ≤ 6)) && decide (P.DK_LED3 = q)) ||
       (!(decide (value % 8 > 3)) && decide (P.DK_LED4 = q))) := by
  unfold leds_mask DK_LED1_MSK DK_LED2_MSK DK_LED3_MSK DK_LED4_MSK
  rw [Nat.testBit_or, Nat.testBit_or, Nat.testBit_or, ite_bit_testBit, ite_bit_testBit,
    ite_bit_testBit, ite_bit_testBit]

theorem leds_mask_mod (P : Platform) (b : Nat) : leds_mask P b = leds_mask P (b % 8) := by
  unfold leds_mask
  rw [Nat.mod_mod]

/-- C8. The mask depends on b mod 8 only; when the four LED bit numbers are
distinct, bit DK_LEDj of the mask is set exactly when m = b mod 8 lies
outside the window j-1 < m <= j+3, for j = 1, 2, 3, 4, and no other bit of
the mask is set. -/
theorem leds_mask_windows (P : Platform) (a b : Nat)
    (hd : [P.DK_LED1, P.DK_LED2, P.DK_LED3, P.DK_LED4].Nodup) :
    (a % 8 = b % 8 → leds_mask P a = leds_mask P b) ∧
      ((leds_mask P b).testBit P.DK_LED1 = true ↔ ¬ (1 - 1 < b % 8 ∧ b % 8 ≤ 1 + 3)) ∧
      ((leds_mask P b).testBit P.DK_LED2 = true ↔ ¬ (2 - 1 < b % 8 ∧ b % 8 ≤ 2 + 3)) ∧
      ((leds_mask P b).testBit P.DK_LED3 = true ↔ ¬ (3 - 1 < b % 8 ∧ b % 8 ≤ 3 + 3)) ∧
      ((leds_mask P b).testBit P.DK_LED4 = true ↔ ¬ (4 - 1 < b % 8 ∧ b % 8 ≤ 4 + 3)) ∧
      (∀ q, (leds_mask P b).testBit q = true →
        q = P.DK_LED1 ∨ q = P.DK_LED2 ∨ q = P.DK_LED3 ∨ q = P.DK_LED4) := by
  simp only [List.nodup_cons, List.mem_cons, List.mem_singleton, List.not_mem_nil, or_false,
    not_or, List.nodup_nil, and_true, not_false_eq_true] at hd
  obtain ⟨⟨h12, h13, h14⟩, ⟨h23, h24⟩, h34⟩ := hd
  have hm : b % 8 < 8 := Nat.mod_lt _ (by decide)
  refine ⟨fun h => ?_, ?_, ?_, ?_, ?_, fun q hq => ?_⟩
  · rw [leds_mask_mod P a, leds_mask_mod P b, h]
  · rw [leds_mask_testBit]
    simp [Ne.symm h12, Ne.symm h13, Ne.symm h14]
    omega
  · rw [leds_mask_testBit]
    simp [h12, Ne.symm h23, Ne.symm h24]
    omega
  · rw [leds_mask_testBit]
    simp [h13, h23, Ne.symm h34]
    omega
  · rw [leds_mask_testBit]
    simp only [h14, h24, h34, decide_False, Bool.and_false, Bool.or_false, Bool.false_or,
      decide_True, Bool.and_true, Bool.not_eq_true', decide_eq_false_iff_not]
    omega
  · rw [leds_mask_testBit] at hq
    simp only [Bool.or_eq_true, Bool.and_eq_true, decide_eq_true_eq] at hq
    rcases hq with ((hq | hq) | hq) | hq
    · exact Or.inl hq.2.symm
    · exact Or.inr (Or.inl hq.2.symm)
    · exact Or.inr (Or.inr (Or.inl hq.2.symm))
    · exact Or.inr (Or.inr (Or.inr hq.2.symm))

/-- C8 on the development-kit bit numbers: bytes 3 and 251 have the same
mask. -/
theorem leds_mask_windows_witness : leds_mask nrfPlatform 3 = leds_mask nrfPlatform 251 :=
  (leds_mask_windows nrfPlatform 3 251 (by decide)).1 (by decide)

/-- C9, as stated, fails: for k = 0 the bytes 0 and 4 give masks that differ
in all four lines, not in exactly one. -/
theorem lines_differing_zero_four :
    0 % 8 = 0 ∧ 4 % 8 = 0 + 4 ∧
      lines_differing nrfPlatform (leds_mask nrfPlatform 0) (leds_mask nrfPlatform 4) = 4 ∧
      lines_differing nrfPlatform (leds_mask nrfPlatform 0) (leds_mask nrfPlatform 4) ≠ 1 := by
  decide

/-- C9, amended. When the four LED bit numbers are distinct, for every k in
0..3 and all a, b with a mod 8 = k and b mod 8 = k + 4, the masks computed
for a and for b differ in the state of every one of the four lines. -/
theorem lines_differing_half_period (P : Platform) (k a b : Nat)
    (hd : [P.DK_LED1, P.DK_LED2, P.DK_LED3, P.DK_LED4].Nodup)
    (hk : k < 4) (ha : a % 8 = k) (hb : b % 8 = k + 4) :
    lines_differing P (leds_mask P a) (leds_mask P b) = 4 := by
  simp only [List.nodup_cons, List.mem_cons, List.mem_singleton, List.not_mem_nil, or_false,
    not_or, List.nodup_nil, and_true, not_false_eq_true] at hd
  obtain ⟨⟨h12, h13, h14⟩, ⟨h23, h24⟩, h34⟩ := hd
  unfold lines_differing
  interval_cases k <;>
    simp [leds_mask_testBit, ha, hb, h12, h13, h14, h23, h24, h34, Ne.symm h12, Ne.symm h13,
      Ne.symm h14, Ne.symm h23, Ne.symm h24, Ne.symm h34, List.filter]

/-- C9 amended, at the bytes 9 and 253 (k = 1). -/
theorem lines_differing_half_period_witness :
    lines_differing nrfPlatform (leds_mask nrfPlatform 9) (leds_mask nrfPlatform 253) = 4 :=
  lines_differing_half_period nrfPlatform 1 9 253 (by decide) (by decide) (by decide) (by decide)

end EsbPtx
